import Mathlib

/-!
Shallow embedding of `static/js/chart.js` (the BackTesting_rightSideOfV
chart controller) and proofs about its observable behaviour.

The script is event-driven DOM glue: a DOM-ready handler that builds a
chart with four series, a crosshair-move legend callback, a symbol-list
fetcher and a per-symbol data fetcher.  Each handler is embedded as a pure
function from its inputs (fetch outcome, event parameter, DOM input
values) to the list of observable effects it performs and/or the DOM state
it leaves behind.  Machine numbers are modelled as `Int`/`ℚ`; fallible
fetches as an explicit outcome type.
-/

namespace ChartJs

/-- One OHLC bar `{time, open, high, low, close}`; `time` is epoch seconds. -/
structure Bar where
  time : Int
  «open» : ℚ
  high : ℚ
  low : ℚ
  close : ℚ
  deriving Repr, DecidableEq

/-- A `{time, value}` point, the element shape of the volume, VWAP and EMA
series arrays. -/
structure Point where
  time : Int
  value : ℚ
  deriving Repr, DecidableEq

/-- A marker annotation `{time, ...}`: the controller reads only `time` and
passes the display metadata through opaquely, so it is one opaque field here. -/
structure Marker where
  time : Int
  meta : String
  deriving Repr, DecidableEq

/-- Outcome of a `fetch(...)` / `response.json()` round trip: the fetch
promise can reject (network error), the response can be non-2xx
(`response.ok` false), `json()` can reject (parse error), or a parsed
value is produced. -/
inductive FetchOutcome (α : Type) where
  | networkError (msg : String)
  | httpError (status : Nat)
  | parseError (msg : String)
  | ok (value : α)
  deriving Repr, DecidableEq

/-- The `error.message` a `catch` block sees for each failure outcome
(`none` on success).  Both fetchers turn a non-2xx response into
`throw new Error("HTTP error! status: " + status)`. -/
def FetchOutcome.errorMessage {α : Type} : FetchOutcome α → Option String
  | .networkError m => some m
  | .httpError st => some ("HTTP error! status: " ++ toString st)
  | .parseError m => some m
  | .ok _ => none

/-- Parsed body of `GET /data/{symbol}`.  `ohlc` and `markers` are `Option`
because the controller itself observes their absence (`!data.ohlc`, and
`data.markers.sort` throwing); `volume`, `vwap`, `ema` are forwarded to the
chart library untouched and are modelled as present per the interface. -/
structure DataResponse where
  ohlc : Option (List Bar)
  volume : List Point
  vwap : List Point
  ema : List Point
  markers : Option (List Marker)
  deriving Repr, DecidableEq

/-- Observable effects of one `loadData` run, in program order: the
loading-indicator class toggles, the HTTP request, alerts, and the calls
into the chart library (`setData` on the four series, `setMarkers`,
`timeScale().fitContent()`).  Console logging is omitted: it touches no
modelled state and no claim mentions it. -/
inductive Event where
  | showLoading
  | hideLoading
  | fetchRequest (url : String)
  | alert (msg : String)
  | setCandleData (bars : List Bar)
  | setVolumeData (pts : List Point)
  | setVwapData (pts : List Point)
  | setEmaData (pts : List Point)
  | setMarkers (ms : List Marker)
  | fitContent
  deriving Repr, DecidableEq

/-- Does the event write one of the four data series (`setData`)? -/
def Event.isSeriesUpdate : Event → Bool
  | .setCandleData _ => true
  | .setVolumeData _ => true
  | .setVwapData _ => true
  | .setEmaData _ => true
  | _ => false

/-- Does the event write the candle series' markers (`setMarkers`)? -/
def Event.isMarkerUpdate : Event → Bool
  | .setMarkers _ => true
  | _ => false

/-- `URLSearchParams.toString()` over the accumulated `append` calls:
`k=v` pairs joined by `&`.  Percent-encoding of reserved characters is not
modelled: date-input values (`YYYY-MM-DD`) contain none. -/
def paramsToString (params : List (String × String)) : String :=
  String.intercalate "&" (params.map fun p => p.1 ++ "=" ++ p.2)

/-- The `params` list `loadData` builds: `start_date` appended when
`startDate` is truthy (non-empty), then `end_date` when `endDate` is. -/
def dataParams (startDate endDate : String) : List (String × String) :=
  (if startDate ≠ "" then [("start_date", startDate)] else []) ++
  (if endDate ≠ "" then [("end_date", endDate)] else [])

/-- The request URL of `loadData`: `/data/{symbol}`, with `?` and the query
string appended when `params.toString()` is truthy (non-empty). -/
def buildDataUrl (symbol startDate endDate : String) : String :=
  let url := "/data/" ++ symbol
  let qs := paramsToString (dataParams startDate endDate)
  if qs ≠ "" then url ++ "?" ++ qs else url

/-- `array.sort((a, b) => a.time - b.time)` on the OHLC array: a stable
ascending sort by the numeric `time` field.  (ECMAScript leaves the sort
algorithm unspecified but requires the result sorted by the comparator
and, since ES2019, stable; any stable ascending-by-`time` sort is a
faithful model, and insertion sort keeps the embedding structurally
recursive.) -/
def sortBarsByTime (l : List Bar) : List Bar :=
  l.insertionSort fun a b => a.time ≤ b.time

/-- `array.sort((a, b) => a.time - b.time)` on the marker array; see
`sortBarsByTime`. -/
def sortMarkersByTime (l : List Marker) : List Marker :=
  l.insertionSort fun a b => a.time ≤ b.time

/-- `loadData(symbol)` as the list of effects it performs, given the two
date inputs' current values and the fetch outcome.  Line by line from the
source: falsy-symbol guard; show the loading indicator; build the URL;
issue the fetch; in `try`: non-ok response throws, empty or missing `ohlc`
alerts "No data found..." and returns early, otherwise sort and set the
four series, then sort and set the markers and fit content — a missing
`markers` field makes `data.markers.sort` throw a TypeError *after* the
four `setData` calls; `catch` alerts the generic per-symbol message;
`finally` removes the indicator class on every path. -/
def loadData (symbol startDate endDate : String)
    (outcome : FetchOutcome DataResponse) : List Event :=
  if symbol = "" then []
  else
    let url := buildDataUrl symbol startDate endDate
    let tryCatch : List Event :=
      match outcome with
      | .networkError _ => [.alert ("Error loading data for " ++ symbol)]
      | .httpError _ => [.alert ("Error loading data for " ++ symbol)]
      | .parseError _ => [.alert ("Error loading data for " ++ symbol)]
      | .ok data =>
        match data.ohlc with
        | none => [.alert "No data found for the selected criteria."]
        | some ohlc =>
          if ohlc.length = 0 then
            [.alert "No data found for the selected criteria."]
          else
            [.setCandleData (sortBarsByTime ohlc),
             .setVolumeData data.volume,
             .setVwapData data.vwap,
             .setEmaData data.ema] ++
            match data.markers with
            | none => [.alert ("Error loading data for " ++ symbol)]
            | some ms => [.setMarkers (sortMarkersByTime ms), .fitContent]
    [.showLoading, .fetchRequest url] ++ tryCatch ++ [.hideLoading]

/-! ## Symbol selector (`fetchSymbols`) -/

/-- One `<option>` element of the symbol `<select>`. -/
structure OptionEl where
  value : String
  text : String
  disabled : Bool
  selected : Bool
  deriving Repr, DecidableEq

/-- State of the symbol `<select>`: its option elements, its `disabled`
flag, and its current `value` (the selected option's value, `""` when the
selection is the empty-valued placeholder or no option is selected). -/
structure SelectorState where
  options : List OptionEl
  disabled : Bool
  value : String
  deriving Repr, DecidableEq

/-- `<option value="" disabled selected>Loading symbols...</option>`. -/
def loadingOption : OptionEl :=
  { value := "", text := "Loading symbols...", disabled := true, selected := true }

/-- `<option value="" disabled selected>Select Symbol</option>`. -/
def selectSymbolOption : OptionEl :=
  { value := "", text := "Select Symbol", disabled := true, selected := true }

/-- `<option value="" disabled selected>Error loading symbols</option>`. -/
def errorSymbolOption : OptionEl :=
  { value := "", text := "Error loading symbols", disabled := true, selected := true }

/-- The option appended for one returned symbol: `value = textContent = symbol`. -/
def symbolOption (symbol : String) : OptionEl :=
  { value := symbol, text := symbol, disabled := false, selected := false }

/-- DOM semantics of assigning `select.value = v`: the option with that
value becomes selected; if no option has value `v` the selection is
cleared and `value` reads back as `""`. -/
def setSelectValue (s : SelectorState) (v : String) : SelectorState :=
  if s.options.any fun o => o.value = v then { s with value := v }
  else { s with value := "" }

/-- Parsed body of `GET /symbols`. -/
structure SymbolsResponse where
  symbols : List String
  deriving Repr, DecidableEq

/-- Side effects of `fetchSymbols` other than mutating the selector:
alerts, and (for the no-data-fetch claims) any call into `loadData`.  The
source contains no `loadData` call in `fetchSymbols` — the auto-load was
removed — so no constructor of this type is produced on any path. -/
inductive SymEvent where
  | alert (msg : String)
  | loadDataCall (symbol : String)
  deriving Repr, DecidableEq

/-- Does the event call into `loadData` (issue a data fetch)? -/
def SymEvent.isLoadDataCall : SymEvent → Bool
  | .loadDataCall _ => true
  | _ => false

/-- `fetchSymbols()` from the source: set the loading placeholder and
disable the select; on success replace the placeholder, append one option
per returned symbol, re-enable, and when the list is non-empty assign the
first symbol (`data.symbols[0]`, here `headD ""` under the non-emptiness
guard, with the `length > 0` test written as its `length = 0` complement)
to `select.value` — and no data load; on any failure set the error
placeholder (the select stays disabled) and alert with the error message. -/
def fetchSymbols (outcome : FetchOutcome SymbolsResponse) :
    SelectorState × List SymEvent :=
  let s0 : SelectorState := { options := [loadingOption], disabled := true, value := "" }
  match outcome with
  | .ok data =>
    let s1 := { s0 with options := [selectSymbolOption], value := "" }
    let s2 := { s1 with options := s1.options ++ data.symbols.map symbolOption }
    let s3 := { s2 with disabled := false }
    let s4 :=
      if data.symbols.length = 0 then s3
      else setSelectValue s3 (data.symbols.headD "")
    (s4, [])
  | outcome =>
    let msg := (outcome.errorMessage).getD ""
    ({ s0 with options := [errorSymbolOption], value := "" },
     [.alert ("Failed to load symbols: " ++ msg)])

/-! ## Crosshair legend -/

/-- `Number.prototype.toFixed(2)` per its ECMAScript definition on exact
rationals: for non-negative `x`, the integer `n` closest to `x * 100`
(larger `n` on ties, i.e. `⌊x * 100 + 1/2⌋`) rendered with two digits
after the point; a negative `x` is formatted as `-` followed by the
rendering of `-x`. -/
def toFixed2Nonneg (x : ℚ) : String :=
  let q := x * 100
  let n : Int := (2 * q.num + (q.den : Int)).ediv (2 * (q.den : Int))
  let whole := n / 100
  let frac := n % 100
  toString whole ++ "." ++ (if frac < 10 then "0" ++ toString frac else toString frac)

/-- See `toFixed2Nonneg`; this is the full signed `toFixed(2)`.  (`n` there
is `⌊x * 100 + 1/2⌋` computed on the reduced numerator and denominator, so
that it evaluates by kernel reduction.) -/
def toFixed2 (x : ℚ) : String :=
  if x.num < 0 then "-" ++ toFixed2Nonneg (-x) else toFixed2Nonneg x

/-- `candleData.open !== undefined ? candleData.open.toFixed(2) : '-'`,
shared by the four price fields. -/
def priceText (v : Option ℚ) : String :=
  match v with
  | some x => toFixed2 x
  | none => "-"

/-- The candle datum `param.seriesData.get(candleSeries)` yields: each
price field individually guarded against `undefined` by the source. -/
structure CandleHoverData where
  «open» : Option ℚ
  high : Option ℚ
  low : Option ℚ
  close : Option ℚ
  deriving Repr, DecidableEq

/-- The volume datum `param.seriesData.get(volumeSeries)` yields. -/
structure VolumeHoverData where
  value : Option ℚ
  deriving Repr, DecidableEq

/-- The crosshair-move callback's parameter: `param.point` (pixel
coordinates, absent when the cursor leaves the pane), `param.time` (epoch
seconds, absent off-data), and the two series data lookups. -/
structure CrosshairParam where
  point : Option (Int × Int)
  time : Option Int
  candleData : Option CandleHoverData
  volumeData : Option VolumeHoverData
  deriving Repr, DecidableEq

/-- The floating legend element: its `display` style (`block`/shown vs
`none`/hidden) and its `innerHTML`. -/
structure LegendState where
  visible : Bool
  html : String
  deriving Repr, DecidableEq

/-- The legend `innerHTML` template string of the source, with the HTML
skeleton kept verbatim and the surrounding template-literal whitespace
normalised away. -/
def legendMarkup (symbol dateStr o h l c vol : String) : String :=
  "<div style=\"font-size: 18px; margin-bottom: 6px; font-weight: 600;\">" ++ symbol ++
  "</div><div style=\"font-size: 14px; margin-bottom: 4px; color: #999;\">" ++ dateStr ++
  "</div><div>O: <span style=\"color: #26a69a\">" ++ o ++
  "</span> H: <span style=\"color: #26a69a\">" ++ h ++
  "</span> L: <span style=\"color: #ef5350\">" ++ l ++
  "</span> C: <span style=\"color: #d1d4dc\">" ++ c ++
  "</span></div><div>Vol: <span style=\"color: #d1d4dc\">" ++ vol ++ "</span></div>"

/-- The volume legend text of the source:
`volumeData && volumeData.value !== undefined ? value.toLocaleString() : '-'`,
with `toLocaleString` abstracted as the host locale's number formatter. -/
def volText (fmtLocaleNumber : ℚ → String) (volumeData : Option VolumeHoverData) : String :=
  match volumeData with
  | some vd =>
    match vd.value with
    | some v => fmtLocaleNumber v
    | none => "-"
  | none => "-"

/-- The `subscribeCrosshairMove` callback.  `containerW`/`containerH` are
`container.clientWidth`/`clientHeight`; `symbolValue` is
`symbolSelect.value`; `fmtLocaleNumber` and `fmtLocaleDateTime` stand for
the host's locale-dependent `Number.prototype.toLocaleString` and
`Date.prototype.toLocaleString` (the latter applied to the constructed
`Date`'s milliseconds).  The JS guard is
`param.point === undefined || !param.time || x < 0 || x > w || y < 0 || y > h`
— note `!param.time` is a truthiness test, so a present time equal to `0`
also hides the legend — then a second guard hides it when the candle
series has no datum; otherwise the legend is shown and its `innerHTML`
replaced. -/
def crosshairMove (containerW containerH : Int) (symbolValue : String)
    (fmtLocaleNumber : ℚ → String) (fmtLocaleDateTime : Int → String)
    (prev : LegendState) (param : CrosshairParam) : LegendState :=
  match param.point with
  | none => { prev with visible := false }
  | some (x, y) =>
    match param.time with
    | none => { prev with visible := false }
    | some t =>
      if t = 0 ∨ x < 0 ∨ x > containerW ∨ y < 0 ∨ y > containerH then
        { prev with visible := false }
      else
        match param.candleData with
        | none => { prev with visible := false }
        | some candleData =>
          let o := priceText candleData.«open»
          let h := priceText candleData.high
          let l := priceText candleData.low
          let c := priceText candleData.close
          let vol := volText fmtLocaleNumber param.volumeData
          let dateStr := fmtLocaleDateTime (t * 1000)
          let currentSymbol := if symbolValue = "" then "N/A" else symbolValue
          { visible := true,
            html := legendMarkup currentSymbol dateStr o h l c vol }

/-! ## DOM-ready initialization -/

/-- Observable steps of the `DOMContentLoaded` handler. -/
inductive InitEvent where
  | consoleError (msg : String)
  | alert (msg : String)
  | createChart
  | createLegendElement
  | addCandlestickSeries
  | addHistogramSeries
  | subscribeCrosshair
  | addLineSeriesVwap
  | addLineSeriesEma
  | observeResize
  | fetchSymbolsCall
  | addListener (target : String)
  deriving Repr, DecidableEq

/-- Does the init step wire an event listener (`addEventListener`)? -/
def InitEvent.isListenerWiring : InitEvent → Bool
  | .addListener _ => true
  | _ => false

/-- The `DOMContentLoaded` handler: when `window.LightweightCharts` is
absent it logs, alerts `"Error: Chart library not loaded. ..."` and
returns before any chart construction, symbol fetch or listener wiring;
otherwise it builds the chart, legend, the four series, the crosshair
subscription and the resize observer, calls `fetchSymbols()`, and wires
the four listeners.  (The `try`/`catch` around chart construction is not
modelled further: an in-`try` exception is caught and alerted, and no
claim depends on that path.) -/
def domContentLoaded (libraryPresent : Bool) : List InitEvent :=
  if !libraryPresent then
    [.consoleError "LightweightCharts library not found!",
     .alert "Error: Chart library not loaded. Check connection or file path."]
  else
    [.createChart, .createLegendElement, .addCandlestickSeries,
     .addHistogramSeries, .subscribeCrosshair, .addLineSeriesVwap,
     .addLineSeriesEma, .observeResize, .fetchSymbolsCall,
     .addListener "load-btn click", .addListener "symbol-select change",
     .addListener "start-date change", .addListener "end-date change"]

/-! ## Inputs used by the concrete counterexamples and witnesses -/

/-- A parse-successful `/data` response whose `markers` field is absent
while `ohlc` is non-empty: `data.markers.sort` then throws after the four
`setData` calls. -/
def markersAbsentResponse : DataResponse :=
  { ohlc := some [⟨100, 1, 2, 1, 2⟩], volume := [], vwap := [], ema := [],
    markers := none }

/-- A crosshair parameter whose time is present but equal to `0` (epoch
second zero), with an in-bounds point and a candle datum. -/
def zeroTimeParam : CrosshairParam :=
  { point := some (10, 10), time := some 0,
    candleData := some { «open» := some 1, high := some 2, low := some 1, close := some 2 },
    volumeData := none }

/-- A crosshair parameter with an in-bounds point, a non-zero time and a
candle datum: the legend is shown for it. -/
def shownParam : CrosshairParam :=
  { point := some (10, 10), time := some 100,
    candleData := some { «open» := some 1, high := some 2, low := some 1, close := some 2 },
    volumeData := none }

/-- The legend hide condition of claim C9 as amended, written from the
spec/claim's words with the one forced change: the time may be *missing or
zero* (the source tests JS truthiness, `!param.time`).  Pointless when the
point is absent; otherwise any bound violation, falsy time, or missing
candle datum hides. -/
def legendHiddenSpec (containerW containerH : Int) (param : CrosshairParam) : Bool :=
  match param.point with
  | none => true
  | some (x, y) =>
    param.time.isNone || (param.time == some 0) ||
    decide (x < 0) || decide (x > containerW) ||
    decide (y < 0) || decide (y > containerH) ||
    param.candleData.isNone

/-! ## Helper lemmas -/

theorem append3_merge (a b c d s : String) (h : a ++ (b ++ c) = d) :
    a ++ (b ++ (c ++ s)) = d ++ s := by
  rw [← h, String.append_assoc, String.append_assoc]

theorem append_ne_empty_left (a s : String) (h : a.length ≠ 0) : a ++ s ≠ "" := by
  intro hh
  have h2 := congrArg String.length hh
  simp [String.length_append] at h2
  omega

theorem sortBarsByTime_pairwise (l : List Bar) :
    (sortBarsByTime l).Pairwise fun a b => a.time ≤ b.time := by
  have : IsTotal Bar fun a b => a.time ≤ b.time := ⟨fun a b => Int.le_total a.time b.time⟩
  have : IsTrans Bar fun a b => a.time ≤ b.time := ⟨fun a b c => Int.le_trans⟩
  exact List.sorted_insertionSort _ l

theorem sortMarkersByTime_pairwise (l : List Marker) :
    (sortMarkersByTime l).Pairwise fun a b => a.time ≤ b.time := by
  have : IsTotal Marker fun a b => a.time ≤ b.time := ⟨fun a b => Int.le_total a.time b.time⟩
  have : IsTrans Marker fun a b => a.time ≤ b.time := ⟨fun a b c => Int.le_trans⟩
  exact List.sorted_insertionSort _ l

theorem setSelectValue_of_mem (s : SelectorState) (v : String)
    (h : ∃ o ∈ s.options, o.value = v) :
    setSelectValue s v = { s with value := v } := by
  unfold setSelectValue
  rw [if_pos]
  rw [List.any_eq_true]
  obtain ⟨o, ho, hv⟩ := h
  exact ⟨o, ho, by simp [hv]⟩

/-! ## Claim theorems -/

/-- Claim C10: calling `loadData` with an empty (falsy) symbol returns at
the `if (!symbol) return;` guard: no HTTP request, no loading-indicator
change, no alert, and no chart or DOM mutation — the effect list is empty. -/
theorem c10_falsy_symbol_noop (startDate endDate : String)
    (outcome : FetchOutcome DataResponse) :
    loadData "" startDate endDate outcome = [] := by
  simp [loadData]

/-- Claim C8: when `window.LightweightCharts` is absent at DOM-ready the
handler only logs and alerts and then returns: no chart construction, no
symbol fetch, and no event-listener wiring occurs. -/
theorem c8_missing_library_aborts_init :
    domContentLoaded false =
      [.consoleError "LightweightCharts library not found!",
       .alert "Error: Chart library not loaded. Check connection or file path."] ∧
    InitEvent.createChart ∉ domContentLoaded false ∧
    InitEvent.fetchSymbolsCall ∉ domContentLoaded false ∧
    (domContentLoaded false).any InitEvent.isListenerWiring = false := by
  refine ⟨rfl, ?_, ?_, rfl⟩ <;> decide

/-- Claim C7: the `loadData` request URL is `/data/{symbol}`, with
`start_date` present as a query parameter iff the start-date string is
non-empty, `end_date` iff the end-date string is non-empty, and no query
string at all when both are empty. -/
theorem c7_request_url (symbol startDate endDate : String) :
    buildDataUrl symbol startDate endDate =
      if startDate = "" ∧ endDate = "" then "/data/" ++ symbol
      else if endDate = "" then "/data/" ++ symbol ++ "?start_date=" ++ startDate
      else if startDate = "" then "/data/" ++ symbol ++ "?end_date=" ++ endDate
      else "/data/" ++ symbol ++ "?start_date=" ++ startDate ++ "&end_date=" ++ endDate := by
  by_cases hs : startDate = "" <;> by_cases he : endDate = "" <;>
    simp only [buildDataUrl, dataParams, hs, he, ne_eq, not_true_eq_false, not_false_eq_true,
      if_true, if_false, ite_true, ite_false, List.append_nil, List.nil_append, and_self,
      and_true, and_false, true_and, false_and, List.singleton_append]
  · rfl
  · have hq : paramsToString [("end_date", endDate)] ≠ "" := by
      show "end_date" ++ "=" ++ endDate ≠ ""
      rw [String.append_assoc]
      exact append_ne_empty_left _ _ (by decide)
    rw [if_pos hq]
    show "/data/" ++ symbol ++ "?" ++ ("end_date" ++ "=" ++ endDate) = _
    rw [String.append_assoc "end_date" "=" endDate,
        String.append_assoc ("/data/" ++ symbol) "?" _,
        append3_merge "?" "end_date" "=" "?end_date=" endDate rfl,
        ← String.append_assoc ("/data/" ++ symbol) "?end_date=" endDate]
  · have hq : paramsToString [("start_date", startDate)] ≠ "" := by
      show "start_date" ++ "=" ++ startDate ≠ ""
      rw [String.append_assoc]
      exact append_ne_empty_left _ _ (by decide)
    rw [if_pos hq]
    show "/data/" ++ symbol ++ "?" ++ ("start_date" ++ "=" ++ startDate) = _
    rw [String.append_assoc "start_date" "=" startDate,
        String.append_assoc ("/data/" ++ symbol) "?" _,
        append3_merge "?" "start_date" "=" "?start_date=" startDate rfl,
        ← String.append_assoc ("/data/" ++ symbol) "?start_date=" startDate]
  · have hq : paramsToString [("start_date", startDate), ("end_date", endDate)] ≠ "" := by
      show "start_date" ++ "=" ++ startDate ++ "&" ++ ("end_date" ++ "=" ++ endDate) ≠ ""
      rw [String.append_assoc, String.append_assoc, String.append_assoc]
      exact append_ne_empty_left _ _ (by decide)
    rw [if_pos hq]
    show "/data/" ++ symbol ++ "?" ++
        ("start_date" ++ "=" ++ startDate ++ "&" ++ ("end_date" ++ "=" ++ endDate)) = _
    rw [String.append_assoc "end_date" "=" endDate]
    rw [String.append_assoc ("start_date" ++ "=" ++ startDate) "&" ("end_date" ++ ("=" ++ endDate))]
    rw [append3_merge "&" "end_date" "=" "&end_date=" endDate rfl]
    rw [String.append_assoc "start_date" "=" startDate]
    rw [String.append_assoc ("/data/" ++ symbol) "?" _]
    rw [String.append_assoc "start_date" ("=" ++ startDate) ("&end_date=" ++ endDate)]
    rw [show ("=" ++ startDate) ++ ("&end_date=" ++ endDate) =
        "=" ++ (startDate ++ ("&end_date=" ++ endDate)) from
      String.append_assoc "=" startDate ("&end_date=" ++ endDate)]
    rw [append3_merge "?" "start_date" "=" "?start_date="
        (startDate ++ ("&end_date=" ++ endDate)) rfl]
    rw [← String.append_assoc startDate "&end_date=" endDate]
    rw [← String.append_assoc "?start_date=" (startDate ++ "&end_date=") endDate]
    rw [← String.append_assoc "?start_date=" startDate "&end_date="]
    rw [← String.append_assoc ("/data/" ++ symbol) ("?start_date=" ++ startDate ++ "&end_date=") endDate]
    rw [← String.append_assoc ("/data/" ++ symbol) ("?start_date=" ++ startDate) "&end_date="]
    rw [← String.append_assoc ("/data/" ++ symbol) "?start_date=" startDate]

/-- Claim C4: for every non-empty symbol and every fetch outcome, the
loading indicator is shown first, is hidden on exit (the `finally` block),
and is hidden exactly once. -/
theorem c4_loading_indicator_scoped (symbol startDate endDate : String)
    (outcome : FetchOutcome DataResponse) (hsym : symbol ≠ "") :
    (loadData symbol startDate endDate outcome).head? = some .showLoading ∧
    (loadData symbol startDate endDate outcome).getLast? = some .hideLoading ∧
    (loadData symbol startDate endDate outcome).count .hideLoading = 1 := by
  unfold loadData
  rw [if_neg hsym]
  rcases outcome with m | st | m | data
  · exact ⟨rfl, rfl, rfl⟩
  · exact ⟨rfl, rfl, rfl⟩
  · exact ⟨rfl, rfl, rfl⟩
  · rcases data with ⟨ohlc, vol, vw, em, mks⟩
    rcases ohlc with _ | l
    · exact ⟨rfl, rfl, rfl⟩
    · rcases l with _ | ⟨b, bs⟩
      · exact ⟨rfl, rfl, rfl⟩
      · rcases mks with _ | ms
        · exact ⟨rfl, rfl, rfl⟩
        · exact ⟨rfl, rfl, rfl⟩

/-- Witness for C4 at a concrete failing fetch. -/
theorem c4_witness_indicator :
    (loadData "AAPL" "" "" (.networkError "connection reset")).head? = some .showLoading ∧
    (loadData "AAPL" "" "" (.networkError "connection reset")).getLast? = some .hideLoading ∧
    (loadData "AAPL" "" "" (.networkError "connection reset")).count .hideLoading = 1 :=
  c4_loading_indicator_scoped "AAPL" "" "" (.networkError "connection reset") (by decide)

/-- Claim C2: a parse-successful response with missing or empty `ohlc`
leads to the "No data found" alert, no series update and no marker update,
and the loading indicator is still hidden on exit. -/
theorem c2_empty_ohlc_no_series_update (symbol startDate endDate : String)
    (data : DataResponse) (hsym : symbol ≠ "")
    (hempty : data.ohlc = none ∨ data.ohlc = some []) :
    loadData symbol startDate endDate (.ok data) =
      [.showLoading, .fetchRequest (buildDataUrl symbol startDate endDate),
       .alert "No data found for the selected criteria.", .hideLoading] ∧
    (loadData symbol startDate endDate (.ok data)).any Event.isSeriesUpdate = false ∧
    (loadData symbol startDate endDate (.ok data)).any Event.isMarkerUpdate = false ∧
    (loadData symbol startDate endDate (.ok data)).getLast? = some .hideLoading := by
  have hmain : loadData symbol startDate endDate (.ok data) =
      [.showLoading, .fetchRequest (buildDataUrl symbol startDate endDate),
       .alert "No data found for the selected criteria.", .hideLoading] := by
    rcases data with ⟨ohlc, vol, vw, em, mks⟩
    simp only at hempty
    rcases hempty with h | h <;> subst h <;> unfold loadData <;> rw [if_neg hsym] <;> rfl
  refine ⟨hmain, ?_, ?_, ?_⟩ <;> rw [hmain] <;> rfl

/-- Witness for C2 at the scenario input `ohlc = []`. -/
theorem c2_witness_empty :
    loadData "AAPL" "" ""
      (.ok { ohlc := some [], volume := [], vwap := [], ema := [], markers := some [] }) =
      [.showLoading, .fetchRequest "/data/AAPL",
       .alert "No data found for the selected criteria.", .hideLoading] := by
  have h := c2_empty_ohlc_no_series_update "AAPL" "" ""
    { ohlc := some [], volume := [], vwap := [], ema := [], markers := some [] }
    (by decide) (Or.inr rfl)
  rw [h.1]
  rfl

/-- Claim C1: every OHLC array handed to `candleSeries.setData` and every
marker array handed to `candleSeries.setMarkers` is sorted non-decreasing
by `time`, whatever order the backend returned. -/
theorem c1_rendered_series_sorted_by_time (symbol startDate endDate : String)
    (outcome : FetchOutcome DataResponse) :
    (∀ bs, Event.setCandleData bs ∈ loadData symbol startDate endDate outcome →
      bs.Pairwise fun a b => a.time ≤ b.time) ∧
    (∀ ms, Event.setMarkers ms ∈ loadData symbol startDate endDate outcome →
      ms.Pairwise fun a b => a.time ≤ b.time) := by
  constructor <;> intro xs hmem <;> unfold loadData at hmem
  all_goals
    by_cases hsym : symbol = ""
  · rw [if_pos hsym] at hmem; simp at hmem
  · rw [if_neg hsym] at hmem
    rcases outcome with m | st | m | data
    · simp at hmem
    · simp at hmem
    · simp at hmem
    · rcases data with ⟨ohlc, vol, vw, em, mks⟩
      rcases ohlc with _ | l
      · simp at hmem
      · rcases l with _ | ⟨b, bs'⟩
        · simp at hmem
        · rcases mks with _ | ms' <;> simp at hmem <;> rw [hmem] <;>
            exact sortBarsByTime_pairwise _
  · rw [if_pos hsym] at hmem; simp at hmem
  · rw [if_neg hsym] at hmem
    rcases outcome with m | st | m | data
    · simp at hmem
    · simp at hmem
    · simp at hmem
    · rcases data with ⟨ohlc, vol, vw, em, mks⟩
      rcases ohlc with _ | l
      · simp at hmem
      · rcases l with _ | ⟨b, bs'⟩
        · simp at hmem
        · rcases mks with _ | ms'
          · simp at hmem
          · simp at hmem
            rw [hmem]
            exact sortMarkersByTime_pairwise _

/-- Witness for C1 at the spec's scenario: bars arrive as times 200, 100
and markers as times 300, 100; both handed-over arrays are sorted. -/
theorem c1_witness_sorted :
    (sortBarsByTime [⟨200, 1, 1, 1, 1⟩, ⟨100, 2, 2, 2, 2⟩]).Pairwise
      (fun a b => a.time ≤ b.time) ∧
    (sortMarkersByTime [⟨300, "sell"⟩, ⟨100, "buy"⟩]).Pairwise
      (fun a b => a.time ≤ b.time) := by
  have h := c1_rendered_series_sorted_by_time "AAPL" "" ""
    (.ok { ohlc := some [⟨200, 1, 1, 1, 1⟩, ⟨100, 2, 2, 2, 2⟩], volume := [], vwap := [],
           ema := [], markers := some [⟨300, "sell"⟩, ⟨100, "buy"⟩] })
  exact ⟨h.1 _ (by simp [loadData]), h.2 _ (by simp [loadData])⟩

/-- Counterexample to claim C3 as stated: with a response whose `markers`
field is absent (one of the failures the claim covers) the failure alert
fires, yet the series data has been modified — `setCandleData` was called
before the `data.markers.sort` TypeError. -/
theorem c3_counterexample_markers_absent :
    Event.alert "Error loading data for AAPL" ∈
      loadData "AAPL" "" "" (.ok markersAbsentResponse) ∧
    (loadData "AAPL" "" "" (.ok markersAbsentResponse)).any Event.isSeriesUpdate = true ∧
    Event.setCandleData [⟨100, 1, 2, 1, 2⟩] ∈
      loadData "AAPL" "" "" (.ok markersAbsentResponse) := by
  refine ⟨?_, rfl, ?_⟩ <;> simp [loadData, markersAbsentResponse, sortBarsByTime]

/-- Claim C3 as amended: for a non-2xx status, network rejection or JSON
parse error the generic per-symbol alert fires, the indicator is hidden
exactly once and no series is updated; when the response parses but its
`markers` field is absent, the same alert fires and the indicator is
hidden exactly once, but the four series have already been updated before
the failure. -/
theorem c3_fetch_failure_behaviour (symbol startDate endDate : String)
    (outcome : FetchOutcome DataResponse) (hsym : symbol ≠ "") :
    (outcome.errorMessage.isSome →
      loadData symbol startDate endDate outcome =
        [.showLoading, .fetchRequest (buildDataUrl symbol startDate endDate),
         .alert ("Error loading data for " ++ symbol), .hideLoading] ∧
      (loadData symbol startDate endDate outcome).any Event.isSeriesUpdate = false ∧
      (loadData symbol startDate endDate outcome).count .hideLoading = 1) ∧
    (∀ data l, outcome = .ok data → data.ohlc = some l → l ≠ [] → data.markers = none →
      loadData symbol startDate endDate outcome =
        [.showLoading, .fetchRequest (buildDataUrl symbol startDate endDate),
         .setCandleData (sortBarsByTime l), .setVolumeData data.volume,
         .setVwapData data.vwap, .setEmaData data.ema,
         .alert ("Error loading data for " ++ symbol), .hideLoading] ∧
      (loadData symbol startDate endDate outcome).count .hideLoading = 1) := by
  constructor
  · intro herr
    rcases outcome with m | st | m | data
    · unfold loadData; rw [if_neg hsym]; exact ⟨rfl, rfl, rfl⟩
    · unfold loadData; rw [if_neg hsym]; exact ⟨rfl, rfl, rfl⟩
    · unfold loadData; rw [if_neg hsym]; exact ⟨rfl, rfl, rfl⟩
    · simp [FetchOutcome.errorMessage] at herr
  · intro data l hok hohlc hne hmk
    subst hok
    rcases data with ⟨ohlc, vol, vw, em, mks⟩
    simp only at hohlc hmk
    subst hohlc
    subst hmk
    rcases l with _ | ⟨b, bs⟩
    · exact absurd rfl hne
    · unfold loadData
      rw [if_neg hsym]
      exact ⟨rfl, rfl⟩

/-- Witness for C3 (amended) at a 500 response and at the markers-absent
response. -/
theorem c3_witness_failure :
    (loadData "AAPL" "" "" (.httpError 500) =
      [.showLoading, .fetchRequest "/data/AAPL",
       .alert "Error loading data for AAPL", .hideLoading]) ∧
    (loadData "AAPL" "" "" (.ok markersAbsentResponse) =
      [.showLoading, .fetchRequest "/data/AAPL",
       .setCandleData [⟨100, 1, 2, 1, 2⟩], .setVolumeData [], .setVwapData [],
       .setEmaData [], .alert "Error loading data for AAPL", .hideLoading]) := by
  have h1 := (c3_fetch_failure_behaviour "AAPL" "" "" (.httpError 500) (by decide)).1 (by decide)
  have h2 := (c3_fetch_failure_behaviour "AAPL" "" "" (.ok markersAbsentResponse)
      (by decide)).2 markersAbsentResponse [⟨100, 1, 2, 1, 2⟩] rfl rfl
      (List.cons_ne_nil _ _) rfl
  exact ⟨by rw [h1.1]; rfl, by rw [h2.1]; rfl⟩

/-- Claim C5: a successful symbol fetch with at least one symbol leaves
the selector as a disabled placeholder followed by one option per returned
symbol (option value = the symbol string, in returned order), re-enables
the selector, selects the first returned symbol, and triggers no data
load. -/
theorem c5_selector_populated (data : SymbolsResponse)
    (h : 0 < data.symbols.length) :
    (fetchSymbols (.ok data)).1.options =
      selectSymbolOption :: data.symbols.map symbolOption ∧
    selectSymbolOption.disabled = true ∧
    (∀ s, (symbolOption s).value = s) ∧
    (fetchSymbols (.ok data)).1.disabled = false ∧
    (fetchSymbols (.ok data)).1.value = data.symbols.headD "" ∧
    (fetchSymbols (.ok data)).2 = [] := by
  rcases data with ⟨syms⟩
  rcases syms with _ | ⟨x, xs⟩
  · simp at h
  · have hfs : fetchSymbols (.ok ⟨x :: xs⟩) =
        (setSelectValue
          { options := selectSymbolOption :: (x :: xs).map symbolOption,
            disabled := false, value := "" } x, []) := rfl
    have hset := setSelectValue_of_mem
      { options := selectSymbolOption :: (x :: xs).map symbolOption,
        disabled := false, value := "" } x
      ⟨symbolOption x,
       List.mem_cons_of_mem _ (List.mem_map_of_mem _ (List.mem_cons_self x xs)), rfl⟩
    refine ⟨?_, rfl, fun s => rfl, ?_, ?_, ?_⟩ <;> (rw [hfs, hset]; try rfl)

/-- Witness for C5 at the spec's scenario `symbols = ["AAPL", "MSFT"]`. -/
theorem c5_witness_selector :
    (fetchSymbols (.ok ⟨["AAPL", "MSFT"]⟩)).1.options =
      [selectSymbolOption, symbolOption "AAPL", symbolOption "MSFT"] ∧
    (fetchSymbols (.ok ⟨["AAPL", "MSFT"]⟩)).1.disabled = false ∧
    (fetchSymbols (.ok ⟨["AAPL", "MSFT"]⟩)).1.value = "AAPL" ∧
    (fetchSymbols (.ok ⟨["AAPL", "MSFT"]⟩)).2 = [] := by
  have h := c5_selector_populated ⟨["AAPL", "MSFT"]⟩ (by decide)
  exact ⟨h.1, h.2.2.2.1, h.2.2.2.2.1, h.2.2.2.2.2⟩

/-- Claim C6: a failed symbol fetch (non-2xx status, network rejection or
parse error) leaves the selector showing the error placeholder, alerts the
user with the error message, and issues no data fetch. -/
theorem c6_symbol_fetch_failure (outcome : FetchOutcome SymbolsResponse)
    (msg : String) (herr : outcome.errorMessage = some msg) :
    fetchSymbols outcome =
      ({ options := [errorSymbolOption], disabled := true, value := "" },
       [.alert ("Failed to load symbols: " ++ msg)]) ∧
    (fetchSymbols outcome).2.any SymEvent.isLoadDataCall = false := by
  rcases outcome with m | st | m | d
  · simp only [FetchOutcome.errorMessage, Option.some.injEq] at herr
    subst herr
    exact ⟨rfl, rfl⟩
  · simp only [FetchOutcome.errorMessage, Option.some.injEq] at herr
    subst herr
    exact ⟨rfl, rfl⟩
  · simp only [FetchOutcome.errorMessage, Option.some.injEq] at herr
    subst herr
    exact ⟨rfl, rfl⟩
  · simp [FetchOutcome.errorMessage] at herr

/-- Witness for C6 at the spec's scenario of an HTTP 500 on `/symbols`. -/
theorem c6_witness_failure :
    fetchSymbols (.httpError 500) =
      ({ options := [errorSymbolOption], disabled := true, value := "" },
       [.alert "Failed to load symbols: HTTP error! status: 500"]) := by
  have h := c6_symbol_fetch_failure (.httpError 500) "HTTP error! status: 500" rfl
  rw [h.1]
  rfl

/-- Counterexample to claim C9 as stated: a crosshair event with a present
point inside the container bounds, a present time equal to `0` (epoch
second zero — falsy in JS), and a present candle datum satisfies none of
the claim's hide conditions, yet the code hides the legend. -/
theorem c9_counterexample_zero_time :
    (crosshairMove 100 100 "AAPL" toFixed2 toString
        { visible := true, html := "previous" } zeroTimeParam).visible = false ∧
    zeroTimeParam.point = some (10, 10) ∧
    zeroTimeParam.time = some 0 ∧
    zeroTimeParam.time ≠ none ∧
    zeroTimeParam.candleData.isSome = true ∧
    ((0 : Int) ≤ 10 ∧ (10 : Int) ≤ 100) := by
  refine ⟨rfl, rfl, rfl, by decide, rfl, by decide⟩

/-- Claim C9 as amended (the time may be missing *or zero*, since the code
tests JS truthiness): the legend is hidden exactly when `legendHiddenSpec`
holds — point absent, time missing or zero, point out of the container
bounds, or no candle datum — leaving the markup untouched; otherwise it is
shown with O/H/L/C formatted to two decimals (dash when undefined), volume
via the locale number formatter (dash when missing), the timestamp via the
locale date-time formatter at epoch seconds × 1000, and the currently
selected symbol name (`N/A` when empty). -/
theorem c9_legend_update (containerW containerH : Int) (symbolValue : String)
    (fmtLocaleNumber : ℚ → String) (fmtLocaleDateTime : Int → String)
    (prev : LegendState) (param : CrosshairParam) :
    (legendHiddenSpec containerW containerH param = true →
      crosshairMove containerW containerH symbolValue fmtLocaleNumber fmtLocaleDateTime
          prev param = { prev with visible := false }) ∧
    (legendHiddenSpec containerW containerH param = false →
      ∀ t cd, param.time = some t → param.candleData = some cd →
        crosshairMove containerW containerH symbolValue fmtLocaleNumber fmtLocaleDateTime
            prev param =
          { visible := true,
            html := legendMarkup (if symbolValue = "" then "N/A" else symbolValue)
              (fmtLocaleDateTime (t * 1000))
              (priceText cd.«open») (priceText cd.high)
              (priceText cd.low) (priceText cd.close)
              (volText fmtLocaleNumber param.volumeData) }) ∧
    (legendHiddenSpec containerW containerH param = false →
      param.time.isSome = true ∧ param.candleData.isSome = true) := by
  rcases param with ⟨pt, tm, cd, vd⟩
  rcases pt with _ | ⟨x, y⟩
  · exact ⟨fun _ => rfl,
      fun hfalse => by simp [legendHiddenSpec] at hfalse,
      fun hfalse => by simp [legendHiddenSpec] at hfalse⟩
  · rcases tm with _ | t
    · exact ⟨fun _ => rfl,
        fun hfalse => by simp [legendHiddenSpec] at hfalse,
        fun hfalse => by simp [legendHiddenSpec] at hfalse⟩
    · rcases cd with _ | c
      · refine ⟨fun _ => ?_,
          fun hfalse => by simp [legendHiddenSpec] at hfalse,
          fun hfalse => by simp [legendHiddenSpec] at hfalse⟩
        simp only [crosshairMove]
        split_ifs with hc
        · rfl
        · rfl
      · by_cases hc : t = 0 ∨ x < 0 ∨ x > containerW ∨ y < 0 ∨ y > containerH
        · have hspec : legendHiddenSpec containerW containerH
              ⟨some (x, y), some t, some c, vd⟩ = true := by
            simp [legendHiddenSpec]
            tauto
          refine ⟨fun _ => ?_, fun hfalse => ?_, fun hfalse => ?_⟩
          · simp only [crosshairMove]
            rw [if_pos hc]
          · rw [hspec] at hfalse
            exact Bool.noConfusion hfalse
          · rw [hspec] at hfalse
            exact Bool.noConfusion hfalse
        · have hspec : legendHiddenSpec containerW containerH
              ⟨some (x, y), some t, some c, vd⟩ = false := by
            push_neg at hc
            simp [legendHiddenSpec, not_or]
            tauto
          refine ⟨fun htrue => ?_, fun _ t' c' ht hcd => ?_, fun _ => ⟨rfl, rfl⟩⟩
          · rw [hspec] at htrue
            exact Bool.noConfusion htrue
          · injection ht with ht'
            injection hcd with hcd'
            subst ht'
            subst hcd'
            simp only [crosshairMove]
            rw [if_neg hc]

/-- Witness for C9 (amended) at a shown in-bounds event. -/
theorem c9_witness_legend :
    crosshairMove 100 100 "AAPL" toFixed2 toString
        { visible := false, html := "" } shownParam =
      { visible := true,
        html := legendMarkup "AAPL" (toString (100000 : Int)) (priceText (some 1))
          (priceText (some 2)) (priceText (some 1)) (priceText (some 2)) "-" } := by
  have h := (c9_legend_update 100 100 "AAPL" toFixed2 toString
      { visible := false, html := "" } shownParam).2.1 (by decide) 100
      { «open» := some 1, high := some 2, low := some 1, close := some 2 } rfl rfl
  rw [h]
  rfl

end ChartJs
